import Mathlib

/-!
# Verification of the Turnstile → Telegram notification worker

Shallow embedding of the Cloudflare Worker sources
(`src/index.ts`, `src/utils/response.ts`, `src/middleware/auth.ts`,
`src/middleware/turnstile.ts`, `src/actions/telegram.ts`) in Lean 4.

Modelling conventions:
* JavaScript strings are Lean `String`s; `charCodeAt` is modelled by
  `Char.toNat` (the code-point model of a JS string).
* A header read (`headers.get(...)`) yields `Option String`; `none` models
  a `null` return, `some ""` a header set to the empty string.
* JS truthiness on strings (`!s`, `a || b`) is modelled explicitly:
  a string is falsy exactly when it is `""`, an optional string is falsy
  when it is `none` or `some ""`.
* The two outbound network calls (Turnstile verification, Telegram send)
  are modelled by oracle parameters: an `Except String r` value standing
  for "the fetch+JSON-parse threw with this message" / "the parsed reply".
* An uncaught JS exception is modelled by `Except Unit`. The one reachable
  throw site is the `body.turnstile_token` property access after
  `request.json()` resolved to JSON `null` (the text `"null"` parses, so
  the catch around the parse does not fire, and property access on `null`
  throws); the TypeError escapes `handleNotification` and `handleRequest`
  into the `fetch` catch-all. A Workers `Request` always carries a valid
  absolute URL, so `new URL(request.url)` itself never throws.
* JSON numbers are modelled as integers (`Int`); the worker's claims only
  depend on `String(n)` being a nonempty decimal rendering.
-/

/-! ## JavaScript string primitives -/

/-- ASCII whitespace recognised by the model of `String.prototype.trim`. -/
def isJsWs (c : Char) : Bool :=
  c == ' ' || c == '\t' || c == '\n' || c == '\r' || c == '\x0b' || c == '\x0c'

/-- Model of JS `s.trim()`: drop leading and trailing whitespace. -/
def jsTrim (s : String) : String :=
  ⟨((s.data.dropWhile isJsWs).reverse.dropWhile isJsWs).reverse⟩

/-- `pat` occurs at the start of `l`. -/
def beginsWith : List Char → List Char → Bool
  | [], _ => true
  | _ :: _, [] => false
  | p :: ps, c :: cs => p == c && beginsWith ps cs

/-- Model of JS `l.replace(pat, "")` with a string pattern: remove the
first occurrence of `pat`, wherever it appears; leave `l` unchanged when
`pat` does not occur. -/
def stripFirst (pat : List Char) : List Char → List Char
  | [] => []
  | c :: cs =>
    if beginsWith pat (c :: cs) then (c :: cs).drop pat.length
    else c :: stripFirst pat cs

/-- `pat` occurs somewhere in `l` (as a contiguous run). -/
def hasSubList (pat : List Char) : List Char → Bool
  | [] => pat.isEmpty
  | c :: cs => beginsWith pat (c :: cs) || hasSubList pat cs

/-- The character sequence of the string pattern `"Bearer "`. -/
def bearerChars : List Char := "Bearer ".data

/-- Model of JS `s.replace("Bearer ", "")`. -/
def stripBearer (s : String) : String := ⟨stripFirst bearerChars s.data⟩

/-- Model of JS `s.split(",")` (string separator): splitting the empty
string yields `[""]`, consecutive separators yield empty fields. -/
def splitCommaAux : List Char → List Char → List String
  | [], acc => [⟨acc.reverse⟩]
  | c :: cs, acc =>
    if c == ',' then ⟨acc.reverse⟩ :: splitCommaAux cs []
    else splitCommaAux cs (c :: acc)

/-- Model of JS `s.split(",")`. -/
def splitOnComma (s : String) : List String := splitCommaAux s.data []

/-- Model of JS `opt || fallback` on an optional string: the fallback is
taken when the value is absent or the empty string. -/
def jsOrStr (o : Option String) (fallback : String) : String :=
  match o with
  | some s => if s == "" then fallback else s
  | none => fallback

/-- Model of JS `!field` for an optional string field: truthy exactly when
present and nonempty. -/
def fieldFalsy (o : Option String) : Bool :=
  match o with
  | some s => s == ""
  | none => true

/-- Decimal digit character (only used for arguments below 10). -/
def digitChar : Nat → Char
  | 0 => '0' | 1 => '1' | 2 => '2' | 3 => '3' | 4 => '4'
  | 5 => '5' | 6 => '6' | 7 => '7' | 8 => '8' | _ => '9'

/-- Fuelled decimal rendering of a natural number (fuel ≥ 1 suffices for
nonemptiness; fuel `n+1` suffices for correctness). -/
def natToCharsAux : Nat → Nat → List Char
  | 0, _ => []
  | fuel + 1, n =>
    if n < 10 then [digitChar n]
    else natToCharsAux fuel (n / 10) ++ [digitChar (n % 10)]

/-- Decimal rendering of a natural number. -/
def natToChars (n : Nat) : List Char := natToCharsAux (n + 1) n

/-- Model of JS `String(n)` for an integral number. -/
def intToString (n : Int) : String :=
  if n < 0 then "-" ++ ⟨natToChars n.natAbs⟩ else ⟨natToChars n.natAbs⟩

/-! ## JSON values (for the `metadata` mapping) -/

/-- A JSON-ish value as it can appear in the request's `metadata` mapping.
`jundef` models JS `undefined` (distinct from JSON `null`: both are
skipped by the formatter's `value != null` test). -/
inductive JValue where
  | jnull
  | jundef
  | jstr (s : String)
  | jnum (n : Int)
  | jbool (b : Bool)
  | jarr (elems : List JValue)
  | jobj (fields : List (String × JValue))

/-- Escaping of string contents inside `JSON.stringify` output (quotes and
backslashes; control characters are not modelled). -/
def jsonEscapeChar (c : Char) : String :=
  if c == '"' then "\\\"" else if c == '\\' then "\\\\" else String.singleton c

/-- Escape a whole string for `JSON.stringify`. -/
def jsonEscape : List Char → String
  | [] => ""
  | c :: cs => jsonEscapeChar c ++ jsonEscape cs

mutual

/-- Model of the platform's `JSON.stringify` on the values above
(`undefined` inside an array renders as `null`, inside an object the pair
is omitted, matching JS). -/
def stringify : JValue → String
  | .jnull => "null"
  | .jundef => "null"
  | .jstr s => "\"" ++ jsonEscape s.data ++ "\""
  | .jnum n => intToString n
  | .jbool b => if b then "true" else "false"
  | .jarr es => "[" ++ stringifyList es ++ "]"
  | .jobj fs => "\x7b" ++ stringifyFields fs ++ "\x7d"

/-- Comma-joined renderings of array elements. -/
def stringifyList : List JValue → String
  | [] => ""
  | [v] => stringify v
  | v :: vs => stringify v ++ "," ++ stringifyList vs

/-- Comma-joined renderings of object fields (`undefined` fields omitted,
together with their separating comma, as `JSON.stringify` does). -/
def stringifyFields : List (String × JValue) → String
  | [] => ""
  | (k, v) :: fs =>
    match v with
    | .jundef => stringifyFields fs
    | _ =>
      let rest := stringifyFields fs
      let head := "\"" ++ jsonEscape k.data ++ "\":" ++ stringify v
      if rest == "" then head else head ++ "," ++ rest

end

/-! ## Environment and request model (`src/types/env.ts`) -/

/-- The Worker's environment bindings. The two optional variables are
`Option String` (absent = `undefined`); the required ones are plain
strings, with `""` standing for an unset/blank secret (JS falsy). -/
structure Env where
  TURNSTILE_SECRET_KEY : String
  TELEGRAM_BOT_TOKEN : String
  TELEGRAM_CHAT_ID : String
  API_KEY : Option String
  ALLOWED_ORIGINS : Option String

/-- The request headers the worker reads (`headers.get` results). -/
structure RequestHeaders where
  xApiKey : Option String
  authorization : Option String
  origin : Option String
  cfConnectingIp : Option String

/-! ## API-key middleware (`src/middleware/auth.ts`) -/

/-- Outcome of the API-key gate. -/
structure AuthResult where
  success : Bool
  error : Option String
deriving DecidableEq, Repr

/-- Constant-time string comparison, from `secureCompare`:
XOR the code of each character pair, OR the results together, compare the
accumulator with zero; unequal lengths return false up front. -/
def secureCompare (a b : String) : Bool :=
  if a.data.length != b.data.length then false
  else
    ((a.data.zip b.data).map fun cd => cd.1.toNat ^^^ cd.2.toNat).foldl
      (fun r x => r ||| x) 0 == 0

/-- The candidate key extracted from the headers, from the expression
`request.headers.get("X-API-Key") ||
 request.headers.get("Authorization")?.replace("Bearer ", "")`. -/
def candidateKey (h : RequestHeaders) : Option String :=
  match h.xApiKey with
  | some x => if x == "" then h.authorization.map stripBearer else some x
  | none => h.authorization.map stripBearer

/-- The `Missing API key` failure value. -/
def missingKeyError : AuthResult :=
  ⟨false,
   some "Missing API key. Provide via X-API-Key header or Authorization: Bearer <key>"⟩

/-- `validateApiKey` from `src/middleware/auth.ts`. -/
def validateApiKey (h : RequestHeaders) (env : Env) : AuthResult :=
  match env.API_KEY with
  | none => ⟨true, none⟩
  | some key =>
    if key == "" then ⟨true, none⟩
    else
      match candidateKey h with
      | none => missingKeyError
      | some c =>
        if c == "" then missingKeyError
        else if !secureCompare c key then ⟨false, some "Invalid API key"⟩
        else ⟨true, none⟩

/-! ## Turnstile middleware (`src/middleware/turnstile.ts`) -/

/-- The parsed JSON reply of the verification endpoint (the fields the
worker reads). -/
structure TurnstileResponse where
  success : Bool
  errorCodes : Option (List String)
deriving DecidableEq, Repr

/-- Outcome of Turnstile verification. -/
structure TurnstileResult where
  success : Bool
  error : Option String
  details : Option TurnstileResponse
deriving DecidableEq, Repr

/-- The static `ERROR_CODES` lookup table. -/
def ERROR_CODES : List (String × String) :=
  [("missing-input-secret", "The secret parameter was not passed"),
   ("invalid-input-secret", "The secret parameter was invalid or did not exist"),
   ("missing-input-response", "The response parameter was not passed"),
   ("invalid-input-response", "The response parameter is invalid or has expired"),
   ("invalid-widget-id", "The widget ID extracted from the parsed site secret key was invalid"),
   ("invalid-parsed-secret", "The secret extracted from the parsed site secret key was invalid"),
   ("bad-request", "The request was rejected because it was malformed"),
   ("timeout-or-duplicate", "The response parameter has already been validated before"),
   ("internal-error", "An internal error happened while validating the response")]

/-- Table lookup, `ERROR_CODES[code]`. -/
def lookupErrorCode (code : String) : Option String :=
  (ERROR_CODES.find? fun kv => kv.1 == code).map fun kv => kv.2

/-- `getErrorMessage` from `src/middleware/turnstile.ts`
(`ERROR_CODES[code] || code`, joined with `"; "`). -/
def getErrorMessage (codes : Option (List String)) : String :=
  match codes with
  | none => "Unknown verification error"
  | some cs =>
    if cs.isEmpty then "Unknown verification error"
    else String.intercalate "; " (cs.map fun code => jsOrStr (lookupErrorCode code) code)

/-- `verifyTurnstile` from `src/middleware/turnstile.ts`. The outbound
form-POST to the verification endpoint is modelled by the oracle `net`:
`Except.error msg` models a transport/parse exception (caught by the
function), `Except.ok d` the parsed JSON reply. The two early-return
branches never consult `net`, which formalises "no outbound call made". -/
def verifyTurnstile (env : Env) (token : String)
    (net : Except String TurnstileResponse) : TurnstileResult :=
  if env.TURNSTILE_SECRET_KEY == "" then
    ⟨false, some "Turnstile secret key not configured", none⟩
  else if token == "" then
    ⟨false, some "Missing Turnstile token", none⟩
  else
    match net with
    | .error msg => ⟨false, some msg, none⟩
    | .ok d =>
      if !d.success then ⟨false, some (getErrorMessage d.errorCodes), some d⟩
      else ⟨true, none, some d⟩

/-! ## Telegram action (`src/actions/telegram.ts`) -/

/-- The payload handed to an action. -/
structure ActionPayload where
  message : String
  subject : Option String
  metadata : Option (List (String × JValue))

/-- Outcome of an action (the optional `data` payload of the source's
`ActionResult` is never inspected by the handler and is not modelled). -/
structure ActionResult where
  success : Bool
  message : String
deriving DecidableEq, Repr

/-- The parsed JSON reply of the Telegram Bot API (the fields the worker
reads). -/
structure TelegramResponse where
  ok : Bool
  description : Option String
deriving DecidableEq, Repr

namespace TelegramAction

/-- `TelegramAction.validate`: both credentials must be nonempty
(`Boolean(botToken && chatId)`). -/
def validate (botToken chatId : String) : Bool :=
  botToken != "" && chatId != ""

/-- `TelegramAction.escapeHtml`: the three sequential global replacements
`&`→`&amp;`, `<`→`&lt;`, `>`→`&gt;` (the sequencing introduces no further
matches, so a single character-wise pass is equivalent). -/
def escChar (c : Char) : String :=
  if c == '&' then "&amp;"
  else if c == '<' then "&lt;"
  else if c == '>' then "&gt;"
  else String.singleton c

/-- Character-list worker for `escapeHtml`. -/
def escapeHtmlChars : List Char → String
  | [] => ""
  | c :: cs => escChar c ++ escapeHtmlChars cs

/-- `TelegramAction.escapeHtml`. -/
def escapeHtml (s : String) : String := escapeHtmlChars s.data

/-- The `str` computed for one metadata value inside `formatMessage`:
strings are trimmed then escaped, numbers and booleans are `String(...)`d
then escaped, `null`/`undefined` leave `str` empty, anything else is
`JSON.stringify`d then escaped. -/
def renderValue : JValue → String
  | .jstr s => escapeHtml (jsTrim s)
  | .jnum n => escapeHtml (intToString n)
  | .jbool b => escapeHtml (if b then "true" else "false")
  | .jnull => ""
  | .jundef => ""
  | .jarr es => escapeHtml (stringify (.jarr es))
  | .jobj fs => escapeHtml (stringify (.jobj fs))

/-- The metadata loop of `formatMessage`: one `<b>key:</b> value` fragment
per entry whose rendered value is nonempty (`if (str) fields.push(...)`). -/
def metaFields (md : List (String × JValue)) : List String :=
  md.filterMap fun kv =>
    let str := renderValue kv.2
    if str == "" then none
    else some ("<b>" ++ escapeHtml kv.1 ++ ":</b> " ++ str)

/-- `TelegramAction.formatMessage`. -/
def formatMessage (p : ActionPayload) : String :=
  let subjFields : List String :=
    match p.subject with
    | some s =>
      if s != "" && jsTrim s != "" then ["<b>" ++ escapeHtml (jsTrim s) ++ "</b>"]
      else []
    | none => []
  let msgFields : List String :=
    if p.message != "" && jsTrim p.message != "" then [escapeHtml (jsTrim p.message)]
    else []
  let metaFs : List String :=
    match p.metadata with
    | some md => metaFields md
    | none => []
  String.intercalate "\n" (subjFields ++ msgFields ++ metaFs)

/-- `TelegramAction.execute`. The POST to `/sendMessage` is modelled by
the oracle `net`: `Except.error msg` models a thrown transport/parse
exception (caught, surfaced with the exception's message), `Except.ok`
carries `response.ok` and the parsed `TelegramResponse`. -/
def execute (botToken chatId : String) (_payload : ActionPayload)
    (net : Except String (Bool × TelegramResponse)) : ActionResult :=
  if !validate botToken chatId then
    ⟨false, "Telegram action is not properly configured"⟩
  else
    match net with
    | .error msg => ⟨false, msg⟩
    | .ok (httpOk, d) =>
      if !httpOk || !d.ok then
        ⟨false, jsOrStr d.description "Failed to send Telegram message"⟩
      else ⟨true, "Notification sent successfully"⟩

end TelegramAction

/-! ## Response utilities (`src/utils/response.ts`) -/

/-- The uniform JSON envelope (the generic `data` payload is never
inspected by any claim and is not modelled). -/
structure ApiResponse where
  success : Bool
  message : String
  error : Option String
deriving DecidableEq, Repr

/-- An HTTP response: status, optional JSON envelope body (`none` models a
`null` body, as in the 204 preflight), and a header list. -/
structure HttpResponse where
  status : Nat
  body : Option ApiResponse
  headers : List (String × String)
deriving DecidableEq, Repr

/-- `Headers.get`. -/
def headersGet : List (String × String) → String → Option String
  | [], _ => none
  | (k', v) :: rest, k => if k' == k then some v else headersGet rest k

/-- `Headers.set`: overwrite an existing entry, else append. -/
def headersSet : List (String × String) → String → String → List (String × String)
  | [], k, v => [(k, v)]
  | (k', v') :: rest, k, v =>
    if k' == k then (k, v) :: rest else (k', v') :: headersSet rest k v

/-- `jsonResponse`: serialise the envelope with a `Content-Type` header. -/
def jsonResponse (b : ApiResponse) (status : Nat) : HttpResponse :=
  ⟨status, some b, [("Content-Type", "application/json")]⟩

/-- `successResponse`. -/
def successResponse (message : String) : HttpResponse :=
  jsonResponse ⟨true, message, none⟩ 200

/-- `errorResponse` (the message is echoed into both `message` and
`error`). -/
def errorResponse (message : String) (status : Nat) : HttpResponse :=
  jsonResponse ⟨false, message, some message⟩ status

/-- `withCors`: copy the response and overlay the four CORS headers. -/
def withCors (r : HttpResponse) (origin : String) : HttpResponse :=
  { r with
    headers :=
      headersSet
        (headersSet
          (headersSet
            (headersSet r.headers "Access-Control-Allow-Origin" origin)
            "Access-Control-Allow-Methods" "GET, POST, OPTIONS")
          "Access-Control-Allow-Headers" "Content-Type, X-API-Key, Authorization")
        "Access-Control-Max-Age" "86400" }

/-! ## Router and entry point (`src/index.ts`) -/

/-- An inbound request. `path` is `new URL(request.url).pathname`: a
Workers `Request` always carries a valid absolute URL (the `Request`
constructor rejects anything else), so the `URL` constructor in
`handleRequest` never throws and the pathname always exists. -/
structure Request where
  method : String
  path : String
  headers : RequestHeaders

/-- The parsed notification body. Fields are optional strings (`none`
models an absent field); non-string JSON field values are not modelled. -/
structure NotificationRequest where
  turnstile_token : Option String
  message : Option String
  subject : Option String
  metadata : Option (List (String × JValue))

/-- The outcome of `await request.json()` as `handleNotification` sees it:
the promise can reject on malformed JSON (caught into the 400 branch); it
can resolve to the JSON literal `null`, on which the subsequent
`body.turnstile_token` property access throws an uncaught TypeError; or it
resolves to any other JSON value, whose relevant fields are read (a
non-object value such as a number or string simply reads all fields as
`undefined`, i.e. `obj` with absent fields). -/
inductive ParsedBody where
  | parseError
  | jnullBody
  | obj (body : NotificationRequest)

/-- The effectful parts of one request's handling: the outcome of
`request.json()` and the two network oracles. -/
structure NetOracle where
  parsedBody : ParsedBody
  turnstileNet : Except String TurnstileResponse
  telegramNet : Except String (Bool × TelegramResponse)

/-- The allow-list computed inside `getAllowedOrigin`:
`env.ALLOWED_ORIGINS?.split(",").map((o) => o.trim()) || ["*"]` (a set
variable always splits to a nonempty array, hence is truthy). -/
def allowedOriginsList (env : Env) : List String :=
  match env.ALLOWED_ORIGINS with
  | none => ["*"]
  | some s => (splitOnComma s).map jsTrim

/-- `getAllowedOrigin` from `src/index.ts`. -/
def getAllowedOrigin (originHdr : Option String) (env : Env) : String :=
  let requestOrigin := jsOrStr originHdr "*"
  let allowedOrigins := allowedOriginsList env
  if allowedOrigins.contains "*" then "*"
  else if allowedOrigins.contains requestOrigin then requestOrigin
  else jsOrStr allowedOrigins.head? "*"

/-- `handleOptions`: 204, no body, the four CORS headers set directly. -/
def handleOptions (originHdr : Option String) (env : Env) : HttpResponse :=
  ⟨204, none,
   [("Access-Control-Allow-Origin", getAllowedOrigin originHdr env),
    ("Access-Control-Allow-Methods", "GET, POST, OPTIONS"),
    ("Access-Control-Allow-Headers", "Content-Type, X-API-Key, Authorization"),
    ("Access-Control-Max-Age", "86400")]⟩

/-- `handleHealthCheck` (the `data` payload — timestamp and config
booleans — is outside the modelled envelope). -/
def handleHealthCheck (_env : Env) : HttpResponse :=
  successResponse "Service is healthy"

/-- The field-validation / verification / send pipeline of
`handleNotification` once the body parsed to a usable value (lines
106-152 of `src/index.ts`). -/
def notifyObjResponse (env : Env) (body : NotificationRequest) (net : NetOracle) :
    HttpResponse :=
  if fieldFalsy body.turnstile_token then
    errorResponse "Missing required field: turnstile_token" 400
  else if fieldFalsy body.message then
    errorResponse "Missing required field: message" 400
  else
    let turnstileResult :=
      verifyTurnstile env (body.turnstile_token.getD "") net.turnstileNet
    if !turnstileResult.success then
      errorResponse (jsOrStr turnstileResult.error "Turnstile verification failed") 403
    else if !TelegramAction.validate env.TELEGRAM_BOT_TOKEN env.TELEGRAM_CHAT_ID then
      errorResponse "Telegram action not properly configured" 500
    else
      let result :=
        TelegramAction.execute env.TELEGRAM_BOT_TOKEN env.TELEGRAM_CHAT_ID
          ⟨body.message.getD "", body.subject, body.metadata⟩ net.telegramNet
      if !result.success then errorResponse result.message 500
      else successResponse result.message

/-- `handleNotification` from `src/index.ts`. `Except.error ()` models the
uncaught TypeError thrown by `body.turnstile_token` when `request.json()`
resolved to `null` (JSON text `"null"` parses successfully, so the
try/catch around the parse does not fire). -/
def handleNotification (req : Request) (env : Env) (net : NetOracle) :
    Except Unit HttpResponse :=
  let authResult := validateApiKey req.headers env
  if !authResult.success then
    .ok (errorResponse (jsOrStr authResult.error "Authentication failed") 401)
  else
    match net.parsedBody with
    | .parseError => .ok (errorResponse "Invalid JSON body" 400)
    | .jnullBody => .error ()
    | .obj body => .ok (notifyObjResponse env body net)

/-- The routing switch of `handleRequest` (reached only for non-OPTIONS
methods): the computed response, or the uncaught throw escaping
`handleNotification`. -/
def routeResponse (req : Request) (env : Env) (net : NetOracle) :
    Except Unit HttpResponse :=
  if req.path == "/" || req.path == "/health" then .ok (handleHealthCheck env)
  else if req.path == "/notify" || req.path == "/api/notify" then
    if req.method != "POST" then .ok (errorResponse "Method not allowed. Use POST." 405)
    else handleNotification req env net
  else .ok (errorResponse "Not found" 404)

/-- `handleRequest` from `src/index.ts`. An uncaught throw from
`handleNotification` aborts the switch, so the CORS-attachment step is
skipped and the exception propagates to the caller. -/
def handleRequest (req : Request) (env : Env) (net : NetOracle) :
    Except Unit HttpResponse :=
  if req.method == "OPTIONS" then
    .ok (handleOptions req.headers.origin env)
  else
    match routeResponse req env net with
    | .error e => .error e
    | .ok response => .ok (withCors response (getAllowedOrigin req.headers.origin env))

/-- The worker's `fetch` entry point: delegate to `handleRequest`, and on
an uncaught exception return a bare 500 envelope (note: without a
`withCors` pass). -/
def fetchMain (req : Request) (env : Env) (net : NetOracle) : HttpResponse :=
  match handleRequest req env net with
  | .ok r => r
  | .error _ => errorResponse "Internal server error" 500

/-! ## Helper lemmas -/

/-- A bitwise OR of naturals is zero exactly when both operands are. -/
lemma nat_or_eq_zero_iff (a b : Nat) : a ||| b = 0 ↔ a = 0 ∧ b = 0 := by
  constructor
  · intro h
    have ht : ∀ i, a.testBit i = false ∧ b.testBit i = false := by
      intro i
      have := congrArg (fun n => Nat.testBit n i) h
      simp only [Nat.testBit_or, Nat.zero_testBit, Bool.or_eq_false_iff] at this
      exact this
    exact ⟨Nat.eq_of_testBit_eq fun i => by simp [(ht i).1, Nat.zero_testBit],
           Nat.eq_of_testBit_eq fun i => by simp [(ht i).2, Nat.zero_testBit]⟩
  · rintro ⟨rfl, rfl⟩; rfl

/-- The OR-accumulating fold of `secureCompare` is zero exactly when the
accumulator and every element are zero. -/
lemma or_foldl_eq_zero_iff (l : List Nat) (acc : Nat) :
    l.foldl (fun r x => r ||| x) acc = 0 ↔ acc = 0 ∧ ∀ x ∈ l, x = 0 := by
  induction l generalizing acc with
  | nil => simp [List.foldl]
  | cons x xs ih =>
    simp only [List.foldl, ih, nat_or_eq_zero_iff, List.mem_cons]
    constructor
    · rintro ⟨⟨ha, hx⟩, hrest⟩
      exact ⟨ha, fun y hy => hy.elim (fun h => h ▸ hx) (hrest y)⟩
    · rintro ⟨ha, hall⟩
      exact ⟨⟨ha, hall x (Or.inl rfl)⟩, fun y hy => hall y (Or.inr hy)⟩

/-- `Char.toNat` is injective. -/
lemma char_toNat_inj {a b : Char} (h : a.toNat = b.toNat) : a = b :=
  Char.eq_of_val_eq (UInt32.eq_of_toBitVec_eq (BitVec.eq_of_toNat_eq h))

/-- Strings are equal exactly when their character lists are. -/
lemma string_eq_iff_data {s t : String} : s = t ↔ s.data = t.data := by
  cases s; cases t
  constructor
  · intro h; cases h; rfl
  · intro h; simp_all

/-- A string is empty exactly when its character list is. -/
lemma string_eq_empty_iff_data {s : String} : s = "" ↔ s.data = [] :=
  string_eq_iff_data

/-- Zipped XOR codes are all zero exactly when two equal-length character
lists are equal. -/
lemma zip_xor_all_zero_iff :
    ∀ la lb : List Char, la.length = lb.length →
      ((∀ x ∈ (la.zip lb).map (fun cd => cd.1.toNat ^^^ cd.2.toNat), x = 0) ↔ la = lb)
  | [], [], _ => by simp
  | [], _ :: _, h => by simp at h
  | _ :: _, [], h => by simp at h
  | a :: la, b :: lb, h => by
    have hlen : la.length = lb.length := by simpa using h
    have ih := zip_xor_all_zero_iff la lb hlen
    simp only [List.zip_cons_cons, List.map_cons, List.mem_cons, List.cons.injEq]
    constructor
    · intro hall
      have hab : a.toNat ^^^ b.toNat = 0 := hall _ (Or.inl rfl)
      refine ⟨char_toNat_inj (Nat.xor_eq_zero.mp hab), ih.mp fun x hx => hall x (Or.inr hx)⟩
    · rintro ⟨rfl, rfl⟩
      intro x hx
      rcases hx with h1 | h2
      · rw [h1]; exact Nat.xor_eq_zero.mpr rfl
      · exact (ih.mpr rfl) x h2

/-- Functional correctness of `secureCompare`: it decides literal string
equality. -/
lemma secureCompare_true_iff (a b : String) : secureCompare a b = true ↔ a = b := by
  unfold secureCompare
  by_cases hlen : a.data.length = b.data.length
  · simp only [hlen, bne_self_eq_false, Bool.false_eq_true, if_false, beq_iff_eq]
    rw [or_foldl_eq_zero_iff]
    simp only [true_and, zip_xor_all_zero_iff a.data b.data hlen]
    rw [← string_eq_iff_data]
  · have : (a.data.length != b.data.length) = true := by simpa using hlen
    simp only [this, if_true, Bool.false_eq_true, false_iff]
    intro hab
    exact hlen (by rw [hab])

/-- `secureCompare` rejects strings of unequal length up front. -/
lemma secureCompare_ne_length (a b : String) (h : a.data.length ≠ b.data.length) :
    secureCompare a b = false := by
  cases hsc : secureCompare a b with
  | false => rfl
  | true =>
    exact absurd (congrArg (fun s => s.data.length) ((secureCompare_true_iff a b).mp hsc)) h

/-- A pattern occurs at the start of itself followed by anything. -/
lemma beginsWith_append (pat rest : List Char) : beginsWith pat (pat ++ rest) = true := by
  induction pat with
  | nil => rfl
  | cons p ps ih =>
    simp [List.cons_append, beginsWith, ih]

/-- Stripping the first occurrence from `pat ++ rest` yields `rest`. -/
lemma stripFirst_append (p : Char) (ps rest : List Char) :
    stripFirst (p :: ps) ((p :: ps) ++ rest) = rest := by
  have hb : beginsWith (p :: ps) ((p :: ps) ++ rest) = true := beginsWith_append _ _
  simp only [List.cons_append] at hb ⊢
  rw [stripFirst, if_pos hb]
  have hd := List.drop_left (p :: ps) rest
  simp only [List.cons_append] at hd
  exact hd

/-- A string with no occurrence of the pattern is left unchanged. -/
lemma stripFirst_of_not_hasSub (pat : List Char) :
    ∀ l : List Char, hasSubList pat l = false → stripFirst pat l = l
  | [], _ => rfl
  | c :: cs, h => by
    have hsplit : beginsWith pat (c :: cs) = false ∧ hasSubList pat cs = false := by
      simpa [hasSubList, Bool.or_eq_false_iff] using h
    rw [stripFirst, if_neg (by simp [hsplit.1]), stripFirst_of_not_hasSub pat cs hsplit.2]

/-- The pattern length is bounded by the string length wherever the
pattern occurs at the start. -/
lemma beginsWith_length_le :
    ∀ pat l : List Char, beginsWith pat l = true → pat.length ≤ l.length
  | [], _, _ => by simp
  | _ :: _, [], h => by simp [beginsWith] at h
  | p :: ps, c :: cs, h => by
    have hc : p = c ∧ beginsWith ps cs = true := by
      simpa [beginsWith, Bool.and_eq_true] using h
    have := beginsWith_length_le ps cs hc.2
    simpa using Nat.succ_le_succ this

/-- Stripping an occurrence of a nonempty pattern strictly shortens the
string. -/
lemma stripFirst_length_lt (p : Char) (ps : List Char) :
    ∀ l : List Char, hasSubList (p :: ps) l = true →
      (stripFirst (p :: ps) l).length < l.length
  | [], h => by simp [hasSubList, List.isEmpty] at h
  | c :: cs, h => by
    by_cases hb : beginsWith (p :: ps) (c :: cs) = true
    · rw [stripFirst, if_pos hb]
      have hle := beginsWith_length_le (p :: ps) (c :: cs) hb
      rw [List.length_drop]
      exact Nat.sub_lt (by simp) (by simp)
    · have hcs : hasSubList (p :: ps) cs = true := by
        rcases Bool.or_eq_true_iff.mp (by simpa [hasSubList] using h) with h1 | h2
        · exact absurd h1 hb
        · exact h2
      rw [stripFirst, if_neg hb]
      simpa using Nat.succ_lt_succ (stripFirst_length_lt p ps cs hcs)

/-- `Headers.get` after `Headers.set` of the same key returns the set
value. -/
lemma headersGet_set_self (hs : List (String × String)) (k v : String) :
    headersGet (headersSet hs k v) k = some v := by
  induction hs with
  | nil => simp [headersSet, headersGet]
  | cons kv rest ih =>
    obtain ⟨k', v'⟩ := kv
    by_cases hk : k' = k
    · subst hk
      simp [headersSet, headersGet]
    · have hbeq : (k' == k) = false := by simpa using hk
      simp [headersSet, headersGet, hbeq, ih]

/-- `Headers.get` of a different key is unaffected by `Headers.set`. -/
lemma headersGet_set_ne (hs : List (String × String)) (k k' v : String)
    (h : k' ≠ k) : headersGet (headersSet hs k v) k' = headersGet hs k' := by
  induction hs with
  | nil =>
    have hbeq : (k == k') = false := by simpa using fun he => h he.symm
    simp [headersSet, headersGet, hbeq]
  | cons kv rest ih =>
    obtain ⟨k₀, v₀⟩ := kv
    by_cases hk : k₀ = k
    · subst hk
      have hbeq : (k₀ == k') = false := by simpa using fun he => h he.symm
      simp [headersSet, headersGet, hbeq]
    · have hbeq : (k₀ == k) = false := by simpa using hk
      by_cases hk' : k₀ = k'
      · subst hk'
        simp [headersSet, headersGet, hbeq]
      · have hbeq' : (k₀ == k') = false := by simpa using hk'
        simp [headersSet, headersGet, hbeq, hbeq', ih]

/-- The four CORS headers present on any `withCors` result. -/
lemma withCors_corsHeaders (r : HttpResponse) (origin : String) :
    headersGet (withCors r origin).headers "Access-Control-Allow-Origin" = some origin ∧
    headersGet (withCors r origin).headers "Access-Control-Allow-Methods" =
      some "GET, POST, OPTIONS" ∧
    headersGet (withCors r origin).headers "Access-Control-Allow-Headers" =
      some "Content-Type, X-API-Key, Authorization" ∧
    headersGet (withCors r origin).headers "Access-Control-Max-Age" = some "86400" := by
  unfold withCors
  refine ⟨?_, ?_, ?_, ?_⟩
  · rw [headersGet_set_ne _ _ _ _ (by decide), headersGet_set_ne _ _ _ _ (by decide),
      headersGet_set_ne _ _ _ _ (by decide), headersGet_set_self]
  · rw [headersGet_set_ne _ _ _ _ (by decide), headersGet_set_ne _ _ _ _ (by decide),
      headersGet_set_self]
  · rw [headersGet_set_ne _ _ _ _ (by decide), headersGet_set_self]
  · rw [headersGet_set_self]

/-- String append concatenates the character lists. -/
lemma string_data_append (a b : String) : (a ++ b).data = a.data ++ b.data :=
  String.data_append a b

/-- `escChar` never produces the empty string. -/
lemma escChar_ne_empty (c : Char) : TelegramAction.escChar c ≠ "" := by
  unfold TelegramAction.escChar
  intro h
  rw [string_eq_empty_iff_data] at h
  split at h
  · simp at h
  · split at h
    · simp at h
    · split at h
      · simp at h
      · simp [String.singleton, String.push] at h

/-- `escapeHtmlChars` produces the empty string only on the empty list. -/
lemma escapeHtmlChars_eq_empty_iff (l : List Char) :
    TelegramAction.escapeHtmlChars l = "" ↔ l = [] := by
  cases l with
  | nil => simp [TelegramAction.escapeHtmlChars]
  | cons c cs =>
    simp only [TelegramAction.escapeHtmlChars, List.cons_ne_nil, iff_false]
    intro h
    rw [string_eq_empty_iff_data, string_data_append, List.append_eq_nil] at h
    exact escChar_ne_empty c (string_eq_empty_iff_data.mpr h.1)

/-- HTML escaping preserves (non)emptiness. -/
lemma escapeHtml_eq_empty_iff (s : String) :
    TelegramAction.escapeHtml s = "" ↔ s = "" := by
  rw [TelegramAction.escapeHtml, escapeHtmlChars_eq_empty_iff, ← string_eq_empty_iff_data]

/-- The fuelled decimal rendering is nonempty whenever it has fuel. -/
lemma natToCharsAux_ne_nil (fuel n : Nat) : natToCharsAux (fuel + 1) n ≠ [] := by
  rw [natToCharsAux]
  split
  · simp
  · simp

/-- Decimal renderings of naturals are nonempty. -/
lemma natToChars_ne_nil (n : Nat) : natToChars n ≠ [] := natToCharsAux_ne_nil n n

/-- `String(n)` is never empty. -/
lemma intToString_ne_empty (n : Int) : intToString n ≠ "" := by
  unfold intToString
  intro h
  rw [string_eq_empty_iff_data] at h
  split at h
  · rw [string_data_append] at h
    exact natToChars_ne_nil _ (List.append_eq_nil.mp h).2
  · exact natToChars_ne_nil _ h

/-- `JSON.stringify` output is never empty. -/
lemma stringify_ne_empty (v : JValue) : stringify v ≠ "" := by
  intro h
  rw [string_eq_empty_iff_data] at h
  cases v with
  | jnull => simp [stringify] at h
  | jundef => simp [stringify] at h
  | jstr s => rw [stringify, string_data_append, string_data_append] at h; simp at h
  | jnum n => exact intToString_ne_empty n (string_eq_empty_iff_data.mpr (by simpa [stringify] using h))
  | jbool b => rw [stringify] at h; cases b <;> simp at h
  | jarr es => rw [stringify, string_data_append, string_data_append] at h; simp at h
  | jobj fs => rw [stringify, string_data_append, string_data_append] at h; simp at h

/-- `List.contains` on strings decides membership. -/
lemma contains_iff_mem (l : List String) (a : String) : l.contains a = true ↔ a ∈ l := by
  rw [List.contains_iff_exists_mem_beq]
  constructor
  · rintro ⟨x, hx, hbeq⟩
    rw [beq_iff_eq] at hbeq
    subst hbeq
    exact hx
  · intro h
    exact ⟨a, h, by simp⟩

/-- The rendered metadata value is empty exactly for `null`, `undefined`,
and strings that trim to nothing. -/
lemma renderValue_eq_empty_iff (v : JValue) :
    TelegramAction.renderValue v = "" ↔
      v = .jnull ∨ v = .jundef ∨ ∃ s, v = .jstr s ∧ jsTrim s = "" := by
  cases v with
  | jnull => simp [TelegramAction.renderValue]
  | jundef => simp [TelegramAction.renderValue]
  | jstr s => simp [TelegramAction.renderValue, escapeHtml_eq_empty_iff]
  | jnum n =>
    simp only [TelegramAction.renderValue, escapeHtml_eq_empty_iff]
    simp [intToString_ne_empty n]
  | jbool b =>
    simp only [TelegramAction.renderValue, escapeHtml_eq_empty_iff]
    cases b <;> simp
  | jarr es =>
    simp only [TelegramAction.renderValue, escapeHtml_eq_empty_iff]
    simp [stringify_ne_empty (.jarr es)]
  | jobj fs =>
    simp only [TelegramAction.renderValue, escapeHtml_eq_empty_iff]
    simp [stringify_ne_empty (.jobj fs)]

/-- The metadata loop is a filter (on nonempty rendered values) followed
by a map (to `<b>key:</b> value` fragments), preserving entry order. -/
lemma metaFields_eq_filter_map (md : List (String × JValue)) :
    TelegramAction.metaFields md =
      (md.filter fun kv => TelegramAction.renderValue kv.2 != "").map
        (fun kv => "<b>" ++ TelegramAction.escapeHtml kv.1 ++ ":</b> " ++
          TelegramAction.renderValue kv.2) := by
  induction md with
  | nil => rfl
  | cons kv rest ih =>
    by_cases h : TelegramAction.renderValue kv.2 = ""
    · have hb : (TelegramAction.renderValue kv.2 != "") = false := by simpa using h
      simp [TelegramAction.metaFields, List.filterMap, List.filter, h, hb, ih,
        TelegramAction.metaFields] at ih ⊢
      simpa [h] using ih
    · have hb : (TelegramAction.renderValue kv.2 != "") = true := by simpa using h
      have hbeq : (TelegramAction.renderValue kv.2 == "") = false := by simpa using h
      simp only [TelegramAction.metaFields, List.filterMap_cons, List.filter_cons, hb,
        hbeq, if_true, List.map_cons] at ih ⊢
      simp only [ih]
      simp

/-- Every description in the `ERROR_CODES` table is nonempty. -/
lemma lookupErrorCode_ne_empty (c d : String) (h : lookupErrorCode c = some d) :
    d ≠ "" := by
  unfold lookupErrorCode at h
  obtain ⟨kv, hfind, hkv⟩ :
      ∃ kv, ERROR_CODES.find? (fun kv => kv.1 == c) = some kv ∧ kv.2 = d := by
    cases hf : ERROR_CODES.find? (fun kv => kv.1 == c) with
    | none => simp [hf] at h
    | some kv => exact ⟨kv, rfl, by simpa [hf] using h⟩
  have hmem := List.mem_of_find?_eq_some hfind
  subst hkv
  have hall : ∀ kv ∈ ERROR_CODES, kv.2 ≠ "" := by decide
  exact hall _ hmem

/-- On table lookups, the code's `ERROR_CODES[code] || code` agrees with a
plain default-valued lookup (no description is the empty string). -/
lemma jsOrStr_lookup (c : String) :
    jsOrStr (lookupErrorCode c) c = (lookupErrorCode c).getD c := by
  cases hf : lookupErrorCode c with
  | none => rfl
  | some d =>
    have hne := lookupErrorCode_ne_empty c d hf
    have hb : (d == "") = false := by simpa using hne
    simp [jsOrStr, hb]

/-! ## Concrete fixtures -/

/-- A network oracle with a well-formed JSON body and failing outbound
calls (the calls are never reached by the claims that use it). -/
def netStub : NetOracle :=
  ⟨.parseError, .error "network unavailable", .error "network unavailable"⟩

/-- An environment with nothing configured. -/
def envEmpty : Env := ⟨"", "", "", none, none⟩

/-- A fully configured environment. -/
def envFull : Env := ⟨"ts-secret", "bot-token", "chat-id", some "api-key", none⟩

/-- A plain health-check request. -/
def reqHealth : Request := ⟨"GET", "/health", ⟨none, none, none, none⟩⟩

/-- An oracle whose JSON body parsed to the literal `null`. -/
def netNull : NetOracle :=
  ⟨.jnullBody, .error "network unavailable", .error "network unavailable"⟩

/-- A POST to `/notify` carrying no auth headers. -/
def reqNullNotify : Request := ⟨"POST", "/notify", ⟨none, none, none, none⟩⟩

/-- The formatter payload of the spec's worked example:
`{subject:"Hi <there>", message:" hello ", metadata:{a:1,b:null}}`. -/
def payloadC3 : ActionPayload :=
  ⟨" hello ", some "Hi <there>", some [("a", .jnum 1), ("b", .jnull)]⟩

/-! ## Claims -/

/-- **C3 (counterexample).** On the spec's worked example the formatter
does not produce the plain third line `a: 1`: the metadata fragment bolds
the key, so the claimed overall output is wrong. -/
theorem claim_C3_counterexample :
    TelegramAction.formatMessage payloadC3 ≠ "<b>Hi &lt;there&gt;</b>\nhello\na: 1" := by
  decide

/-- **C3 (amended).** For the payload
`{subject:"Hi <there>", message:" hello ", metadata:{a:1,b:null}}` the
formatter produces exactly three newline-joined lines: the escaped subject
wrapped in bold markup, the trimmed message, and the fragment
`<b>a:</b> 1` (bold escaped key with colon, then the value), with the `b`
entry omitted because its value is null. -/
theorem claim_C3 :
    TelegramAction.formatMessage payloadC3 = "<b>Hi &lt;there&gt;</b>\nhello\n<b>a:</b> 1" := by
  decide

/-- **C4 (counterexample).** An entry whose value is the empty string is
neither null nor undefined, yet yields no fragment. -/
theorem claim_C4_counterexample :
    TelegramAction.metaFields [("a", JValue.jstr "")] = [] ∧
    JValue.jstr "" ≠ JValue.jnull ∧ JValue.jstr "" ≠ JValue.jundef := by
  refine ⟨rfl, ?_, ?_⟩ <;> simp

/-- **C4 (amended).** The formatter emits one `<b>key:</b> value` fragment
per metadata entry in insertion order, filtered to the entries whose
rendered value is nonempty; the rendered value is empty exactly for null,
undefined, and string values that trim to the empty string (numbers,
booleans, objects and arrays always render nonempty). -/
theorem claim_C4 (md : List (String × JValue)) :
    TelegramAction.metaFields md =
      (md.filter fun kv => TelegramAction.renderValue kv.2 != "").map
        (fun kv => "<b>" ++ TelegramAction.escapeHtml kv.1 ++ ":</b> " ++
          TelegramAction.renderValue kv.2) ∧
    ∀ v : JValue,
      (TelegramAction.renderValue v = "" ↔
        v = .jnull ∨ v = .jundef ∨ ∃ s, v = .jstr s ∧ jsTrim s = "") :=
  ⟨metaFields_eq_filter_map md, renderValue_eq_empty_iff⟩

/-- **C6.** `secureCompare` returns false for strings of unequal length
(via the early length test, before any character is inspected), and for
equal-length strings returns true exactly on literal equality. -/
theorem claim_C6 (a b : String) :
    (a.length ≠ b.length → secureCompare a b = false) ∧
    (a.length = b.length → (secureCompare a b = true ↔ a = b)) := by
  constructor
  · intro h
    exact secureCompare_ne_length a b h
  · intro _
    exact secureCompare_true_iff a b

/-- **C6 (witness).** -/
theorem claim_C6_witness :
    secureCompare "ab" "abc" = false ∧
    (secureCompare "abc" "abc" = true ↔ ("abc" : String) = "abc") :=
  ⟨(claim_C6 "ab" "abc").1 (by decide), (claim_C6 "abc" "abc").2 (by decide)⟩

/-- **C8.** With no verification secret configured, `verifyTurnstile`
fails with the not-configured error; with a secret but an empty token it
fails with the missing-token error; in both situations the result does not
depend on the network oracle (the outbound `fetch` is not reached). -/
theorem claim_C8 (env : Env) (token : String)
    (net net' : Except String TurnstileResponse) :
    (env.TURNSTILE_SECRET_KEY = "" →
      verifyTurnstile env token net =
        ⟨false, some "Turnstile secret key not configured", none⟩) ∧
    (env.TURNSTILE_SECRET_KEY ≠ "" →
      verifyTurnstile env "" net = ⟨false, some "Missing Turnstile token", none⟩) ∧
    (env.TURNSTILE_SECRET_KEY = "" ∨ token = "" →
      verifyTurnstile env token net = verifyTurnstile env token net') := by
  refine ⟨?_, ?_, ?_⟩
  · intro h
    simp [verifyTurnstile, h]
  · intro h
    have hb : (env.TURNSTILE_SECRET_KEY == "") = false := by simpa using h
    simp [verifyTurnstile, hb]
  · rintro (h | h) <;> simp [verifyTurnstile, h]

/-- **C8 (witness).** -/
theorem claim_C8_witness :
    verifyTurnstile envEmpty "tok" (.error "network unavailable") =
      ⟨false, some "Turnstile secret key not configured", none⟩ ∧
    verifyTurnstile envFull "" (.error "network unavailable") =
      ⟨false, some "Missing Turnstile token", none⟩ ∧
    verifyTurnstile envEmpty "tok" (.error "network unavailable") =
      verifyTurnstile envEmpty "tok" (.ok ⟨true, none⟩) :=
  ⟨(claim_C8 envEmpty "tok" (.error "network unavailable") (.ok ⟨true, none⟩)).1 rfl,
   (claim_C8 envFull "tok" (.error "network unavailable") (.ok ⟨true, none⟩)).2.1 (by decide),
   (claim_C8 envEmpty "tok" (.error "network unavailable") (.ok ⟨true, none⟩)).2.2 (Or.inl rfl)⟩

/-- **C9.** The verifier's error-message function yields the generic
message exactly when the code list is absent or empty, and otherwise joins
with `"; "` the per-code renderings, each a table description when the
code is known and the code itself when unknown. -/
theorem claim_C9 (codes : List String) :
    getErrorMessage none = "Unknown verification error" ∧
    getErrorMessage (some []) = "Unknown verification error" ∧
    (codes ≠ [] →
      getErrorMessage (some codes) =
        String.intercalate "; " (codes.map fun c => (lookupErrorCode c).getD c)) := by
  refine ⟨rfl, rfl, ?_⟩
  intro h
  have hne : codes.isEmpty = false := by simpa [List.isEmpty_iff] using h
  simp only [getErrorMessage, hne, Bool.false_eq_true, if_false, jsOrStr_lookup]

/-- **C9 (witness).** -/
theorem claim_C9_witness :
    getErrorMessage (some ["bad-request", "zzz"]) =
      "The request was rejected because it was malformed; zzz" := by
  have h := (claim_C9 ["bad-request", "zzz"]).2.2 (by decide)
  rw [h]
  rfl

/-- Stripping `"Bearer "` from `"Bearer " ++ k` yields `k` (the first
occurrence is the leading one). -/
lemma stripBearer_bearer_append (k : String) : stripBearer ("Bearer " ++ k) = k := by
  rw [string_eq_iff_data]
  show stripFirst bearerChars ("Bearer " ++ k).data = k.data
  rw [string_data_append]
  exact stripFirst_append 'B' "earer ".data k.data

/-- Behaviour of `validateApiKey` once a nonempty key is configured,
expressed over the extracted candidate. -/
lemma validateApiKey_configured (h : RequestHeaders) (env : Env) (key : String)
    (hk : env.API_KEY = some key) (hne : key ≠ "") :
    validateApiKey h env =
      match candidateKey h with
      | none => missingKeyError
      | some c =>
        if c = "" then missingKeyError
        else if c = key then ⟨true, none⟩ else ⟨false, some "Invalid API key"⟩ := by
  unfold validateApiKey
  rw [hk]
  have hb : (key == "") = false := by simpa using hne
  simp only [hb, Bool.false_eq_true, if_false]
  cases candidateKey h with
  | none => rfl
  | some c =>
    by_cases hc : c = ""
    · simp [hc]
    · have hcb : (c == "") = false := by simpa using hc
      simp only [hcb, Bool.false_eq_true, if_false]
      by_cases hck : c = key
      · subst hck
        have hsc : secureCompare c c = true := (secureCompare_true_iff c c).mpr rfl
        simp [hsc, hc]
      · have hsc : secureCompare c key = false := by
          cases hx : secureCompare c key with
          | false => rfl
          | true => exact absurd ((secureCompare_true_iff c key).mp hx) hck
        simp [hsc, hck, hc]

/-- With the X-API-Key header falsy and an Authorization header present,
the candidate is the Authorization value with `"Bearer "` stripped. -/
lemma candidateKey_auth (h : RequestHeaders) (a : String)
    (hx : fieldFalsy h.xApiKey = true) (ha : h.authorization = some a) :
    candidateKey h = some (stripBearer a) := by
  unfold candidateKey
  cases hxa : h.xApiKey with
  | none => rw [ha]; rfl
  | some x =>
    have hxe : (x == "") = true := by rw [hxa] at hx; simpa [fieldFalsy] using hx
    rw [ha]
    simp [hxe]

/-- **C5.** The gate: no configured key (unset or blank) means success for
any headers; with a key configured, a falsy candidate yields the
missing-key error, a nonempty non-matching candidate the invalid-key
error, and the matching key supplied via X-API-Key or via
`Authorization: Bearer <key>` succeeds. -/
theorem claim_C5 (h : RequestHeaders) (env : Env) (key : String) :
    ((env.API_KEY = none ∨ env.API_KEY = some "") →
      validateApiKey h env = ⟨true, none⟩) ∧
    (env.API_KEY = some key → key ≠ "" → fieldFalsy (candidateKey h) = true →
      validateApiKey h env = missingKeyError) ∧
    (env.API_KEY = some key → key ≠ "" → ∀ c, candidateKey h = some c → c ≠ "" →
      c ≠ key → validateApiKey h env = ⟨false, some "Invalid API key"⟩) ∧
    (env.API_KEY = some key → key ≠ "" → h.xApiKey = some key →
      validateApiKey h env = ⟨true, none⟩) ∧
    (env.API_KEY = some key → key ≠ "" → fieldFalsy h.xApiKey = true →
      h.authorization = some ("Bearer " ++ key) →
      validateApiKey h env = ⟨true, none⟩) := by
  refine ⟨?_, ?_, ?_, ?_, ?_⟩
  · rintro (h0 | h0) <;> simp [validateApiKey, h0]
  · intro hk hne hcand
    rw [validateApiKey_configured h env key hk hne]
    cases hc : candidateKey h with
    | none => rfl
    | some c =>
      rw [hc] at hcand
      have : c = "" := by simpa [fieldFalsy] using hcand
      simp [this]
  · intro hk hne c hc hcne hckey
    rw [validateApiKey_configured h env key hk hne, hc]
    simp [hcne, hckey]
  · intro hk hne hx
    have hc : candidateKey h = some key := by
      unfold candidateKey
      rw [hx]
      have : (key == "") = false := by simpa using hne
      simp [this]
    rw [validateApiKey_configured h env key hk hne, hc]
    simp [hne]
  · intro hk hne hxf hauth
    have hc : candidateKey h = some key := by
      rw [candidateKey_auth h _ hxf hauth, stripBearer_bearer_append]
    rw [validateApiKey_configured h env key hk hne, hc]
    simp [hne]

/-- **C5 (witness).** -/
theorem claim_C5_witness :
    validateApiKey ⟨none, none, none, none⟩ envEmpty = ⟨true, none⟩ ∧
    validateApiKey ⟨none, none, none, none⟩ envFull = missingKeyError ∧
    validateApiKey ⟨some "wrong", none, none, none⟩ envFull =
      ⟨false, some "Invalid API key"⟩ ∧
    validateApiKey ⟨some "api-key", none, none, none⟩ envFull = ⟨true, none⟩ ∧
    validateApiKey ⟨none, some "Bearer api-key", none, none⟩ envFull = ⟨true, none⟩ :=
  ⟨(claim_C5 ⟨none, none, none, none⟩ envEmpty "").1 (Or.inl rfl),
   (claim_C5 ⟨none, none, none, none⟩ envFull "api-key").2.1 rfl (by decide) (by decide),
   (claim_C5 ⟨some "wrong", none, none, none⟩ envFull "api-key").2.2.1 rfl (by decide)
     "wrong" (by decide) (by decide) (by decide),
   (claim_C5 ⟨some "api-key", none, none, none⟩ envFull "api-key").2.2.2.1 rfl
     (by decide) rfl,
   (claim_C5 ⟨none, some "Bearer api-key", none, none⟩ envFull "api-key").2.2.2.2 rfl
     (by decide) rfl (by decide)⟩

/-- A key containing `"Bearer "` is changed by the strip. -/
lemma stripBearer_ne_of_hasSub (k : String)
    (h : hasSubList bearerChars k.data = true) : stripBearer k ≠ k := by
  intro he
  have hlt : (stripFirst bearerChars k.data).length < k.data.length := by
    have hb : bearerChars = 'B' :: "earer ".data := rfl
    rw [hb] at h ⊢
    exact stripFirst_length_lt 'B' "earer ".data k.data h
  have hd : stripFirst bearerChars k.data = k.data := by
    have := string_eq_iff_data.mp he
    simpa [stripBearer] using this
  rw [hd] at hlt
  exact Nat.lt_irrefl _ hlt

/-- A string containing `"Bearer "` is nonempty. -/
lemma ne_empty_of_hasSub_bearer (k : String)
    (h : hasSubList bearerChars k.data = true) : k ≠ "" := by
  intro he
  subst he
  simp [hasSubList, bearerChars, List.isEmpty] at h

/-- **C10 (counterexample).** A configured key that itself contains
`"Bearer "` does authenticate via the Authorization header: sending
`"Bearer "` followed by the key strips back to the key. This refutes the
claim's "can never authenticate via that header". -/
theorem claim_C10_counterexample :
    (validateApiKey ⟨none, some "Bearer Bearer k", none, none⟩
        ⟨"", "", "", some "Bearer k", none⟩).success = true ∧
    hasSubList bearerChars "Bearer k".data = true := by
  refine ⟨?_, ?_⟩ <;> decide

/-- **C10 (amended).** With a (nonempty) key configured and the X-API-Key
header absent or empty, authentication via an Authorization header `a`
succeeds exactly when `a` with the first occurrence of `"Bearer "` removed
(from anywhere, not only as a prefix) equals the key. Hence a bare key
with no `"Bearer "` occurrence authenticates as-is; a key containing
`"Bearer "` fails when sent verbatim, but authenticates when the client
sends `"Bearer "` followed by the key. -/
theorem claim_C10 (h : RequestHeaders) (env : Env) (key a : String) :
    (env.API_KEY = some key → key ≠ "" → fieldFalsy h.xApiKey = true →
      h.authorization = some a →
      ((validateApiKey h env).success = true ↔ stripBearer a = key)) ∧
    (hasSubList bearerChars key.data = false → env.API_KEY = some key → key ≠ "" →
      fieldFalsy h.xApiKey = true → h.authorization = some key →
      (validateApiKey h env).success = true) ∧
    (hasSubList bearerChars key.data = true → env.API_KEY = some key →
      fieldFalsy h.xApiKey = true → h.authorization = some key →
      (validateApiKey h env).success = false) ∧
    (env.API_KEY = some key → key ≠ "" → fieldFalsy h.xApiKey = true →
      h.authorization = some ("Bearer " ++ key) →
      (validateApiKey h env).success = true) := by
  have main : ∀ b : String, env.API_KEY = some key → key ≠ "" →
      fieldFalsy h.xApiKey = true → h.authorization = some b →
      ((validateApiKey h env).success = true ↔ stripBearer b = key) := by
    intro b hk hne hxf hauth
    rw [validateApiKey_configured h env key hk hne, candidateKey_auth h b hxf hauth]
    by_cases hsb : stripBearer b = ""
    · have hnk : stripBearer b ≠ key := fun he => hne (he ▸ hsb)
      simp [hsb, missingKeyError, hnk, Ne.symm hne]
    · by_cases hsk : stripBearer b = key
      · simp [hsb, hsk, hne]
      · simp [hsb, hsk, hne]
  refine ⟨main a, ?_, ?_, ?_⟩
  · intro hno hk hne hxf hauth
    exact (main key hk hne hxf hauth).mpr
      (string_eq_iff_data.mpr (by
        simpa [stripBearer] using stripFirst_of_not_hasSub bearerChars key.data hno))
  · intro hyes hk hxf hauth
    have hne : key ≠ "" := ne_empty_of_hasSub_bearer key hyes
    have hiff := main key hk hne hxf hauth
    cases hb : (validateApiKey h env).success with
    | false => rfl
    | true => exact absurd (hiff.mp hb) (stripBearer_ne_of_hasSub key hyes)
  · intro hk hne hxf hauth
    exact (main _ hk hne hxf hauth).mpr (stripBearer_bearer_append key)

/-- **C10 (witness).** -/
theorem claim_C10_witness :
    ((validateApiKey ⟨none, some "api-key", none, none⟩ envFull).success = true ↔
      stripBearer "api-key" = "api-key") ∧
    (validateApiKey ⟨none, some "api-key", none, none⟩ envFull).success = true ∧
    (validateApiKey ⟨none, some "Bearer k", none, none⟩
      ⟨"", "", "", some "Bearer k", none⟩).success = false ∧
    (validateApiKey ⟨none, some "Bearer api-key", none, none⟩ envFull).success = true :=
  ⟨(claim_C10 ⟨none, some "api-key", none, none⟩ envFull "api-key" "api-key").1 rfl
     (by decide) rfl rfl,
   (claim_C10 ⟨none, some "api-key", none, none⟩ envFull "api-key" "api-key").2.1
     (by decide) rfl (by decide) rfl rfl,
   (claim_C10 ⟨none, some "Bearer k", none, none⟩ ⟨"", "", "", some "Bearer k", none⟩
     "Bearer k" "Bearer k").2.2.1 (by decide) rfl rfl rfl,
   (claim_C10 ⟨none, some "Bearer api-key", none, none⟩ envFull "api-key" "x").2.2.2 rfl
     (by decide) rfl (by decide)⟩

/-- The environment of the C7 counterexample: an allow-list whose first
entry is blank. -/
def envC7 : Env := ⟨"", "", "", none, some ",https://a.com"⟩

/-- **C7 (counterexample).** With `ALLOWED_ORIGINS = ",https://a.com"` and
a request origin not in the list, the function returns `"*"` even though a
first configured entry exists (it is the empty string): the fallback to
`"*"` is not restricted to "no first entry exists". -/
theorem claim_C7_counterexample :
    getAllowedOrigin (some "https://b.com") envC7 = "*" ∧
    (allowedOriginsList envC7).head? = some "" ∧
    ("" : String) ≠ "*" := by
  refine ⟨?_, ?_, ?_⟩ <;> decide

/-- **C7 (amended).** `getAllowedOrigin` returns `"*"` whenever the
allow-list contains `"*"` (in particular when unconfigured); otherwise it
echoes a nonempty request Origin that is in the list; otherwise it returns
the first configured origin when that is nonempty, and falls back to `"*"`
when the first entry is the empty string (the split list is never empty,
so "no first entry" cannot occur; the fallback fires on a blank first
entry instead). -/
theorem claim_C7 (originHdr : Option String) (env : Env) :
    ((allowedOriginsList env).contains "*" = true →
      getAllowedOrigin originHdr env = "*") ∧
    (env.ALLOWED_ORIGINS = none → getAllowedOrigin originHdr env = "*") ∧
    (∀ o, (allowedOriginsList env).contains "*" = false → originHdr = some o →
      o ≠ "" → (allowedOriginsList env).contains o = true →
      getAllowedOrigin originHdr env = o) ∧
    (∀ hd, (allowedOriginsList env).contains "*" = false →
      (allowedOriginsList env).contains (jsOrStr originHdr "*") = false →
      (allowedOriginsList env).head? = some hd → hd ≠ "" →
      getAllowedOrigin originHdr env = hd) ∧
    ((allowedOriginsList env).contains "*" = false →
      (allowedOriginsList env).contains (jsOrStr originHdr "*") = false →
      (allowedOriginsList env).head? = some "" →
      getAllowedOrigin originHdr env = "*") := by
  refine ⟨?_, ?_, ?_, ?_, ?_⟩
  · intro h
    simp only [getAllowedOrigin, h, if_true]
  · intro h
    have hl : allowedOriginsList env = ["*"] := by simp [allowedOriginsList, h]
    simp only [getAllowedOrigin, hl, List.contains_cons, beq_self_eq_true, Bool.true_or,
      if_true]
  · intro o hstar ho hone hmem
    have hro : jsOrStr originHdr "*" = o := by
      rw [ho]
      have hbo : (o == "") = false := by simpa using hone
      simp [jsOrStr, hbo]
    simp only [getAllowedOrigin, hstar, Bool.false_eq_true, if_false, hro, hmem, if_true]
  · intro hd hstar hnmem hh hdne
    have hb : (hd == "") = false := by simpa using hdne
    simp only [getAllowedOrigin, hstar, hnmem, Bool.false_eq_true, if_false, hh]
    simp [jsOrStr, hb]
  · intro hstar hnmem hh
    simp only [getAllowedOrigin, hstar, hnmem, Bool.false_eq_true, if_false, hh]
    simp [jsOrStr]

/-- **C7 (witness).** -/
theorem claim_C7_witness :
    getAllowedOrigin none envEmpty = "*" ∧
    getAllowedOrigin (some "https://b.com")
      ⟨"", "", "", none, some "https://a.com,https://b.com"⟩ = "https://b.com" ∧
    getAllowedOrigin (some "https://z.com")
      ⟨"", "", "", none, some "https://a.com,https://b.com"⟩ = "https://a.com" ∧
    getAllowedOrigin (some "https://b.com") envC7 = "*" :=
  ⟨(claim_C7 none envEmpty).2.1 rfl,
   (claim_C7 (some "https://b.com")
       ⟨"", "", "", none, some "https://a.com,https://b.com"⟩).2.2.1 "https://b.com"
     (by decide) rfl (by decide) (by decide),
   (claim_C7 (some "https://z.com")
       ⟨"", "", "", none, some "https://a.com,https://b.com"⟩).2.2.2.1 "https://a.com"
     (by decide) (by decide) (by decide) (by decide),
   (claim_C7 (some "https://b.com") envC7).2.2.2.2 (by decide) (by decide) (by decide)⟩

/-- `handleNotification` throws exactly when the API-key check passed and
the body parsed to JSON `null`. -/
lemma handleNotification_error_iff (req : Request) (env : Env) (net : NetOracle) :
    handleNotification req env net = .error () ↔
      ((validateApiKey req.headers env).success = true ∧
        net.parsedBody = ParsedBody.jnullBody) := by
  cases hauth : (validateApiKey req.headers env).success with
  | false => simp [handleNotification, hauth]
  | true =>
    cases hbody : net.parsedBody with
    | parseError => simp [handleNotification, hauth, hbody]
    | jnullBody => simp [handleNotification, hauth, hbody]
    | obj body => simp [handleNotification, hauth, hbody]

/-- The routing switch propagates a throw exactly from a POST on a notify
path whose API-key check passed and whose body parsed to JSON `null`. -/
lemma routeResponse_error_iff (req : Request) (env : Env) (net : NetOracle) :
    routeResponse req env net = .error () ↔
      ((req.path == "/" || req.path == "/health") = false ∧
       (req.path == "/notify" || req.path == "/api/notify") = true ∧
       (req.method != "POST") = false ∧
       (validateApiKey req.headers env).success = true ∧
       net.parsedBody = ParsedBody.jnullBody) := by
  unfold routeResponse
  by_cases h1 : (req.path == "/" || req.path == "/health") = true
  · simp [h1]
  · have h1' : (req.path == "/" || req.path == "/health") = false := by simpa using h1
    simp only [h1', Bool.false_eq_true, if_false]
    by_cases h2 : (req.path == "/notify" || req.path == "/api/notify") = true
    · simp only [h2, if_true]
      by_cases h3 : (req.method != "POST") = true
      · simp [h3]
      · have h3' : (req.method != "POST") = false := by simpa using h3
        simp only [h3', Bool.false_eq_true, if_false]
        rw [handleNotification_error_iff]
        simp [h1', h2, h3']
    · have h2' : (req.path == "/notify" || req.path == "/api/notify") = false := by
        simpa using h2
      simp [h2']

/-- **C1 (counterexample).** A realizable input reaching the top-level
catch: a POST to `/notify` whose JSON body is the literal `null`. The body
parses (so the 400 branch is skipped), the unconfigured API-key gate
passes, and `body.turnstile_token` throws; the catch-all returns the 500
envelope without the CORS-attachment step, so that response carries no
CORS header at all. -/
theorem claim_C1_counterexample :
    fetchMain reqNullNotify envEmpty netNull =
      errorResponse "Internal server error" 500 ∧
    headersGet (fetchMain reqNullNotify envEmpty netNull).headers
      "Access-Control-Allow-Origin" = none := by
  refine ⟨rfl, ?_⟩
  decide

/-- **C1 (amended).** Every response the fetch entry point returns from a
non-throwing `handleRequest` carries the four CORS headers — the 204
preflight sets them directly and every routed branch (including 404/405
and the notification errors) passes through `withCors`. When
`handleRequest` throws, the catch-all 500 carries only `Content-Type`;
and that throw happens exactly on a POST to `/notify` or `/api/notify`
that passes the API-key check and whose body parsed to JSON `null`. -/
theorem claim_C1 (req : Request) (env : Env) (net : NetOracle) :
    (∀ r, handleRequest req env net = .ok r →
      (fetchMain req env net = r ∧
       headersGet r.headers "Access-Control-Allow-Origin" =
         some (getAllowedOrigin req.headers.origin env) ∧
       headersGet r.headers "Access-Control-Allow-Methods" =
         some "GET, POST, OPTIONS" ∧
       headersGet r.headers "Access-Control-Allow-Headers" =
         some "Content-Type, X-API-Key, Authorization" ∧
       headersGet r.headers "Access-Control-Max-Age" = some "86400")) ∧
    (handleRequest req env net = .error () →
      fetchMain req env net = errorResponse "Internal server error" 500 ∧
      headersGet (fetchMain req env net).headers "Access-Control-Allow-Origin" =
        none) ∧
    (handleRequest req env net = .error () ↔
      ((req.path == "/notify" || req.path == "/api/notify") = true ∧
       (req.method == "POST") = true ∧
       (validateApiKey req.headers env).success = true ∧
       net.parsedBody = ParsedBody.jnullBody)) := by
  refine ⟨?_, ?_, ?_⟩
  · intro r hr
    refine ⟨by unfold fetchMain; rw [hr], ?_⟩
    unfold handleRequest at hr
    by_cases hm : (req.method == "OPTIONS") = true
    · rw [if_pos hm] at hr
      injection hr with h
      subst h
      refine ⟨?_, ?_, ?_, ?_⟩ <;> simp [handleOptions, headersGet]
    · have hm' : (req.method == "OPTIONS") = false := by simpa using hm
      rw [hm'] at hr
      simp only [Bool.false_eq_true, if_false] at hr
      cases hroute : routeResponse req env net with
      | error e =>
        rw [hroute] at hr
        exact absurd hr (by simp)
      | ok resp =>
        rw [hroute] at hr
        injection hr with h
        subst h
        exact ⟨(withCors_corsHeaders _ _).1, (withCors_corsHeaders _ _).2.1,
          (withCors_corsHeaders _ _).2.2.1, (withCors_corsHeaders _ _).2.2.2⟩
  · intro herr
    have hf : fetchMain req env net = errorResponse "Internal server error" 500 := by
      unfold fetchMain
      rw [herr]
    rw [hf]
    exact ⟨rfl, by decide⟩
  · unfold handleRequest
    by_cases hm : (req.method == "OPTIONS") = true
    · rw [if_pos hm]
      constructor
      · intro h
        exact absurd h (by simp)
      · rintro ⟨hp, hpost, _, _⟩
        have hms : req.method = "POST" := by simpa using hpost
        rw [hms] at hm
        exact absurd hm (by decide)
    · have hm' : (req.method == "OPTIONS") = false := by simpa using hm
      rw [hm']
      simp only [Bool.false_eq_true, if_false]
      cases hroute : routeResponse req env net with
      | error e =>
        cases e
        have hfacts := (routeResponse_error_iff req env net).mp hroute
        have hpost : (req.method == "POST") = true := by
          have h3 := hfacts.2.2.1
          simpa [bne] using h3
        constructor
        · intro _
          exact ⟨hfacts.2.1, hpost, hfacts.2.2.2.1, hfacts.2.2.2.2⟩
        · intro _
          rfl
      | ok resp =>
        constructor
        · intro h
          exact absurd h (by simp)
        · rintro ⟨hp, hpost, hauth, hnull⟩
          exfalso
          have hpe : (req.path == "/" || req.path == "/health") = false := by
            have hp' : req.path = "/notify" ∨ req.path = "/api/notify" := by
              simpa using hp
            rcases hp' with h | h
            · rw [h]
              decide
            · rw [h]
              decide
          have hbne : (req.method != "POST") = false := by
            have hh : req.method = "POST" := by simpa using hpost
            rw [hh]
            decide
          have hroute' : routeResponse req env net = .error () :=
            (routeResponse_error_iff req env net).mpr ⟨hpe, hp, hbne, hauth, hnull⟩
          rw [hroute] at hroute'
          exact absurd hroute' (by simp)

/-- **C1 (witness).** -/
theorem claim_C1_witness :
    headersGet (fetchMain reqHealth envEmpty netStub).headers
      "Access-Control-Allow-Origin" = some "*" ∧
    headersGet (fetchMain reqHealth envEmpty netStub).headers
      "Access-Control-Max-Age" = some "86400" ∧
    fetchMain reqNullNotify envEmpty netNull =
      errorResponse "Internal server error" 500 ∧
    headersGet (fetchMain reqNullNotify envEmpty netNull).headers
      "Access-Control-Allow-Origin" = none := by
  have h1 := (claim_C1 reqHealth envEmpty netStub).1
    (withCors (handleHealthCheck envEmpty) (getAllowedOrigin none envEmpty)) rfl
  have herr : handleRequest reqNullNotify envEmpty netNull = .error () :=
    (claim_C1 reqNullNotify envEmpty netNull).2.2.mpr
      ⟨by decide, by decide, by decide, rfl⟩
  have h2 := (claim_C1 reqNullNotify envEmpty netNull).2.1 herr
  refine ⟨?_, ?_, h2.1, h2.2⟩
  · rw [h1.1]
    exact h1.2.1
  · rw [h1.1]
    exact h1.2.2.2.2

/-- A well-formed notification body. -/
def bodyOk : NotificationRequest := ⟨some "tok", some "Hello", none, none⟩

/-- A notify request with a given header set. -/
def reqNotify (h : RequestHeaders) : Request := ⟨"POST", "/notify", h⟩

/-- Headers carrying the configured API key. -/
def hdrApi : RequestHeaders := ⟨some "api-key", none, none, none⟩

/-- Oracle: every step succeeds. -/
def netOkAll : NetOracle := ⟨.obj bodyOk, .ok ⟨true, none⟩, .ok (true, ⟨true, none⟩)⟩

/-- Oracle: the JSON body fails to parse. -/
def netBadJson : NetOracle := ⟨.parseError, .ok ⟨true, none⟩, .ok (true, ⟨true, none⟩)⟩

/-- Oracle: body without a Turnstile token. -/
def netNoToken : NetOracle :=
  ⟨.obj ⟨none, some "Hello", none, none⟩, .ok ⟨true, none⟩, .ok (true, ⟨true, none⟩)⟩

/-- Oracle: body without a message. -/
def netNoMsg : NetOracle :=
  ⟨.obj ⟨some "tok", none, none, none⟩, .ok ⟨true, none⟩, .ok (true, ⟨true, none⟩)⟩

/-- Oracle: the verification service rejects the token. -/
def netVerifyFail : NetOracle :=
  ⟨.obj bodyOk, .ok ⟨false, some ["bad-request"]⟩, .ok (true, ⟨true, none⟩)⟩

/-- Oracle: the Telegram send fails. -/
def netSendFail : NetOracle :=
  ⟨.obj bodyOk, .ok ⟨true, none⟩, .ok (false, ⟨false, none⟩)⟩

/-- A configured environment whose Telegram credentials are blank. -/
def envNoTelegram : Env := ⟨"ts-secret", "", "", some "api-key", none⟩

/-- **C2 (counterexample).** With the API key supplied and a body that is
the JSON literal `null` — valid JSON with `turnstile_token` missing — the
source does not return the claimed 400: `body.turnstile_token` throws, and
the endpoint yields the top-level catch-all 500 instead. -/
theorem claim_C2_counterexample :
    handleNotification (reqNotify hdrApi) envFull netNull = .error () ∧
    fetchMain (reqNotify hdrApi) envFull netNull =
      errorResponse "Internal server error" 500 ∧
    (fetchMain (reqNotify hdrApi) envFull netNull).status ≠ 400 := by
  refine ⟨rfl, rfl, ?_⟩
  decide

/-- **C2 (amended).** `handleNotification` returns 401 when the API-key
check fails; 400 when the body is not valid JSON; throws (yielding the
top-level catch-all 500) when the body parses to JSON `null`; and for any
other parsed body returns 400 when `turnstile_token` or `message` is
missing or empty, 403 when Turnstile verification fails, 500 when the
Telegram action is unconfigured or its send fails, and 200 with a success
envelope when every step succeeds. -/
theorem claim_C2 (req : Request) (env : Env) (net : NetOracle) :
    ((validateApiKey req.headers env).success = false →
      (handleNotification req env net).map HttpResponse.status = .ok 401) ∧
    ((validateApiKey req.headers env).success = true →
      net.parsedBody = ParsedBody.parseError →
      handleNotification req env net = .ok (errorResponse "Invalid JSON body" 400)) ∧
    ((validateApiKey req.headers env).success = true →
      net.parsedBody = ParsedBody.jnullBody →
      handleNotification req env net = .error ()) ∧
    (∀ body, (validateApiKey req.headers env).success = true →
      net.parsedBody = ParsedBody.obj body → fieldFalsy body.turnstile_token = true →
      handleNotification req env net =
        .ok (errorResponse "Missing required field: turnstile_token" 400)) ∧
    (∀ body, (validateApiKey req.headers env).success = true →
      net.parsedBody = ParsedBody.obj body → fieldFalsy body.turnstile_token = false →
      fieldFalsy body.message = true →
      handleNotification req env net =
        .ok (errorResponse "Missing required field: message" 400)) ∧
    (∀ body, (validateApiKey req.headers env).success = true →
      net.parsedBody = ParsedBody.obj body → fieldFalsy body.turnstile_token = false →
      fieldFalsy body.message = false →
      (verifyTurnstile env (body.turnstile_token.getD "") net.turnstileNet).success =
        false →
      (handleNotification req env net).map HttpResponse.status = .ok 403) ∧
    (∀ body, (validateApiKey req.headers env).success = true →
      net.parsedBody = ParsedBody.obj body → fieldFalsy body.turnstile_token = false →
      fieldFalsy body.message = false →
      (verifyTurnstile env (body.turnstile_token.getD "") net.turnstileNet).success =
        true →
      TelegramAction.validate env.TELEGRAM_BOT_TOKEN env.TELEGRAM_CHAT_ID = false →
      handleNotification req env net =
        .ok (errorResponse "Telegram action not properly configured" 500)) ∧
    (∀ body, (validateApiKey req.headers env).success = true →
      net.parsedBody = ParsedBody.obj body → fieldFalsy body.turnstile_token = false →
      fieldFalsy body.message = false →
      (verifyTurnstile env (body.turnstile_token.getD "") net.turnstileNet).success =
        true →
      TelegramAction.validate env.TELEGRAM_BOT_TOKEN env.TELEGRAM_CHAT_ID = true →
      (TelegramAction.execute env.TELEGRAM_BOT_TOKEN env.TELEGRAM_CHAT_ID
        ⟨body.message.getD "", body.subject, body.metadata⟩ net.telegramNet).success =
        false →
      (handleNotification req env net).map HttpResponse.status = .ok 500) ∧
    (∀ body, (validateApiKey req.headers env).success = true →
      net.parsedBody = ParsedBody.obj body → fieldFalsy body.turnstile_token = false →
      fieldFalsy body.message = false →
      (verifyTurnstile env (body.turnstile_token.getD "") net.turnstileNet).success =
        true →
      TelegramAction.validate env.TELEGRAM_BOT_TOKEN env.TELEGRAM_CHAT_ID = true →
      (TelegramAction.execute env.TELEGRAM_BOT_TOKEN env.TELEGRAM_CHAT_ID
        ⟨body.message.getD "", body.subject, body.metadata⟩ net.telegramNet).success =
        true →
      (handleNotification req env net).map HttpResponse.status = .ok 200 ∧
      (handleNotification req env net).map
        (fun r => r.body.map ApiResponse.success) = .ok (some true)) := by
  refine ⟨?_, ?_, ?_, ?_, ?_, ?_, ?_, ?_, ?_⟩
  · intro hauth
    simp [handleNotification, hauth, errorResponse, jsonResponse, Except.map]
  · intro hauth hbody
    simp [handleNotification, hauth, hbody]
  · intro hauth hbody
    simp [handleNotification, hauth, hbody]
  · intro body hauth hbody htok
    simp [handleNotification, notifyObjResponse, hauth, hbody, htok]
  · intro body hauth hbody htok hmsg
    simp [handleNotification, notifyObjResponse, hauth, hbody, htok, hmsg]
  · intro body hauth hbody htok hmsg hver
    simp [handleNotification, notifyObjResponse, hauth, hbody, htok, hmsg, hver,
      errorResponse, jsonResponse, Except.map]
  · intro body hauth hbody htok hmsg hver hval
    simp [handleNotification, notifyObjResponse, hauth, hbody, htok, hmsg, hver, hval]
  · intro body hauth hbody htok hmsg hver hval hexec
    simp [handleNotification, notifyObjResponse, hauth, hbody, htok, hmsg, hver, hval,
      hexec, errorResponse, jsonResponse, Except.map]
  · intro body hauth hbody htok hmsg hver hval hexec
    simp [handleNotification, notifyObjResponse, hauth, hbody, htok, hmsg, hver, hval,
      hexec, successResponse, jsonResponse, Except.map]

/-- **C2 (witness).** -/
theorem claim_C2_witness :
    (handleNotification (reqNotify ⟨some "wrong", none, none, none⟩) envFull
      netOkAll).map HttpResponse.status = .ok 401 ∧
    handleNotification (reqNotify hdrApi) envFull netBadJson =
      .ok (errorResponse "Invalid JSON body" 400) ∧
    handleNotification (reqNotify hdrApi) envFull netNull = .error () ∧
    handleNotification (reqNotify hdrApi) envFull netNoToken =
      .ok (errorResponse "Missing required field: turnstile_token" 400) ∧
    handleNotification (reqNotify hdrApi) envFull netNoMsg =
      .ok (errorResponse "Missing required field: message" 400) ∧
    (handleNotification (reqNotify hdrApi) envFull netVerifyFail).map
      HttpResponse.status = .ok 403 ∧
    handleNotification (reqNotify hdrApi) envNoTelegram netOkAll =
      .ok (errorResponse "Telegram action not properly configured" 500) ∧
    (handleNotification (reqNotify hdrApi) envFull netSendFail).map
      HttpResponse.status = .ok 500 ∧
    (handleNotification (reqNotify hdrApi) envFull netOkAll).map
      HttpResponse.status = .ok 200 ∧
    (handleNotification (reqNotify hdrApi) envFull netOkAll).map
      (fun r => r.body.map ApiResponse.success) = .ok (some true) :=
  ⟨(claim_C2 (reqNotify ⟨some "wrong", none, none, none⟩) envFull netOkAll).1 (by decide),
   (claim_C2 (reqNotify hdrApi) envFull netBadJson).2.1 (by decide) rfl,
   (claim_C2 (reqNotify hdrApi) envFull netNull).2.2.1 (by decide) rfl,
   (claim_C2 (reqNotify hdrApi) envFull netNoToken).2.2.2.1 ⟨none, some "Hello", none, none⟩
     (by decide) rfl (by decide),
   (claim_C2 (reqNotify hdrApi) envFull netNoMsg).2.2.2.2.1 ⟨some "tok", none, none, none⟩
     (by decide) rfl (by decide) (by decide),
   (claim_C2 (reqNotify hdrApi) envFull netVerifyFail).2.2.2.2.2.1 bodyOk (by decide) rfl
     (by decide) (by decide) (by decide),
   (claim_C2 (reqNotify hdrApi) envNoTelegram netOkAll).2.2.2.2.2.2.1 bodyOk (by decide)
     rfl (by decide) (by decide) (by decide) (by decide),
   (claim_C2 (reqNotify hdrApi) envFull netSendFail).2.2.2.2.2.2.2.1 bodyOk (by decide)
     rfl (by decide) (by decide) (by decide) (by decide) (by decide),
   ((claim_C2 (reqNotify hdrApi) envFull netOkAll).2.2.2.2.2.2.2.2 bodyOk (by decide)
     rfl (by decide) (by decide) (by decide) (by decide) (by decide)).1,
   ((claim_C2 (reqNotify hdrApi) envFull netOkAll).2.2.2.2.2.2.2.2 bodyOk (by decide)
     rfl (by decide) (by decide) (by decide) (by decide) (by decide)).2⟩
